import Mathlib

/-!
Verification development for the ot-br-posix SRPL core: a shallow embedding of
the DSO transport (`src/dso/dso_transport.cpp`), the mDNS publisher layer
(`src/mdns/mdns.cpp`, `src/mdns/mdns_mdnssd.cpp`) and the SRPL DNS-SD
controller (`src/srpl_dnssd/srpl_dnssd.cpp`), together with theorems checking
the natural-language specification against it.

Bytes are modelled as `Nat` (the sources only ever produce values < 256),
machine integers as `Nat` with explicit `% 2^w` where narrowing matters, and
C++ containers as Lean lists.  Socket calls are modelled by their visible
effects: reads are driven from an explicit byte stream, and writes/closes are
recorded as actions.  The network environment is assumed non-faulty (connect /
bind / register calls succeed) since the claims are about the program logic,
not the host OS.
-/

namespace OtbrProof

namespace Dso

/-- The two values of `otPlatDsoDisconnectMode`. -/
inductive DisconnectMode
  | forciblyAbort
  | gracefullyClose
  deriving DecidableEq, Repr

/-- Socket-level actions the transport performs, as observable effects.
`mbedtls_net_close` shows up as `closeFd`; a `setsockopt(SO_LINGER)` call (which
`dso_transport.cpp` never performs) would show up as `setLinger`. -/
inductive SockAction
  | closeFd
  | setLinger (enabled : Bool) (seconds : Nat)
  | openListenSocket
  deriving DecidableEq, Repr

/-- Upcalls into the DNS host (`otPlatDsoHandleConnected` /
`otPlatDsoHandleReceive` / `otPlatDsoHandleDisconnected`). -/
inductive DsoUpcall
  | onConnected (handle : Nat)
  | onReceive (handle : Nat) (msg : List Nat)
  | onDisconnected (handle : Nat) (mode : DisconnectMode)
  deriving DecidableEq, Repr

/-- Source constant `sizeof(mBuffer)` in `DsoAgent::DsoConnection`: `uint8_t mBuffer[2048]`. -/
def kBufferSize : Nat := 2048

/-- State of `DsoAgent::DsoConnection` (dso_transport.cpp).
`mBuffer` together with the two indices is represented by the yet-unread
slice `bufferUnread` (the bytes at indices `[mBufferBegin, mBufferEnd)` of
`mBuffer`; bytes below `mBufferBegin` are never read again by the source) plus
the numeric indices themselves, which the source uses for its capacity
arithmetic.  Invariant maintained by every operation:
`bufferUnread.length = bufferEnd - bufferBegin`. -/
structure DsoConnection where
  handle : Nat
  connected : Bool
  pendingMessage : Option (List Nat)
  wantMessageSize : Nat
  bufferBegin : Nat
  bufferEnd : Nat
  bufferUnread : List Nat
  deriving DecidableEq, Repr

/-- A connection as created by `FindOrCreate` / accept (all fields
default-initialised; `mConnected` is set separately by the callers). -/
def mkConnection (h : Nat) (connected : Bool) : DsoConnection :=
  { handle := h
    connected := connected
    pendingMessage := none
    wantMessageSize := 0
    bufferBegin := 0
    bufferEnd := 0
    bufferUnread := [] }

/-- Result of the message-reassembly loop inside `HandleReceive`. -/
structure ParseResult where
  abort : Bool
  died : Bool
  pending : Option (List Nat)
  want : Nat
  bufBegin : Nat
  bufEnd : Nat
  buf : List Nat
  msgs : List (List Nat)
  deriving DecidableEq, Repr

/-- Helper of the reassembly loop: a message completed mid-buffer is
delivered before whatever the rest of the loop delivers. -/
def prependMsg (m : List Nat) (r : ParseResult) : ParseResult :=
  { r with msgs := m :: r.msgs }

/-- The `while (true)` reassembly loop of `DsoAgent::DsoConnection::HandleReceive`
(dso_transport.cpp:360-404), one recursive call per loop entry.

* no pending message and at least 2 buffered bytes: read the big-endian
  length `256 * b0 + b1` (`ntohs` of the two bytes at `mBufferBegin`); a zero
  length disconnects forcibly (`abort := true`, with `mWantMessageSize` left
  at the just-assigned 0 and `mBufferBegin` not yet advanced); otherwise
  consume the two bytes and allocate an empty pending message;
* fewer than 2 buffered bytes and no pending message: break out of the loop
  (note: `mBufferBegin`/`mBufferEnd` are not reset on this path);
* with a pending message: `readLen = min(mWantMessageSize - length, end - begin)`
  (the source dies via `VerifyOrDie(readLen >= 0)` if the subtraction is
  negative, modelled by `died`), append `readLen` bytes, deliver the message
  when it reaches `mWantMessageSize`, and reset both indices to 0 when the
  buffer is fully consumed (`mBufferBegin == mBufferEnd`, equivalently
  `bufferUnread = []`).

The `msg2.length ≠ want ∧ buf2 ≠ []` branch is unreachable
(`readLen < buf.length` forces `msg2.length = want`); the embedding returns a
break-state there.

The recursion is structural on an explicit fuel so that the definition
computes by kernel reduction; the wrapper `parseLoop` below supplies
`2 * buf.length + 2` units, which strictly dominates the loop count: every
recursive call decreases `2 * buf.length + (1 if a message is pending else 0)`,
so the `fuel = 0` exhaustion case (flagged by `died`) is never reached.

The source's locals are inlined (`prependMsg` plays the role of consing the
completed message onto the later deliveries): in the body-reading branch
`min (want - msg.length) buf.length` is the source's `readLen`,
`msg ++ buf.take readLen` its updated pending message,
`buf.drop readLen` the remaining buffered bytes and
`bBegin + readLen` the advanced `mBufferBegin`. -/
def parseLoopF : Nat → Option (List Nat) → Nat → Nat → Nat → List Nat → ParseResult
  | 0, pending, want, bBegin, bEnd, buf =>
    ⟨false, true, pending, want, bBegin, bEnd, buf, []⟩
  | fuel + 1, pending, want, bBegin, bEnd, buf =>
    match pending with
    | none =>
      if 2 ≤ buf.length then
        if 256 * buf.headD 0 + buf.tail.headD 0 = 0 then
          ⟨true, false, none, 0, bBegin, bEnd, buf, []⟩
        else
          parseLoopF fuel (some []) (256 * buf.headD 0 + buf.tail.headD 0)
            (bBegin + 2) bEnd (buf.drop 2)
      else
        ⟨false, false, none, want, bBegin, bEnd, buf, []⟩
    | some msg =>
      if want < msg.length then
        ⟨false, true, some msg, want, bBegin, bEnd, buf, []⟩
      else
        if (msg ++ buf.take (min (want - msg.length) buf.length)).length = want then
          if (buf.drop (min (want - msg.length) buf.length)).isEmpty then
            ⟨false, false, none, 0, 0, 0,
              buf.drop (min (want - msg.length) buf.length),
              [msg ++ buf.take (min (want - msg.length) buf.length)]⟩
          else
            prependMsg (msg ++ buf.take (min (want - msg.length) buf.length))
              (parseLoopF fuel none 0 (bBegin + min (want - msg.length) buf.length) bEnd
                (buf.drop (min (want - msg.length) buf.length)))
        else
          if (buf.drop (min (want - msg.length) buf.length)).isEmpty then
            ⟨false, false, some (msg ++ buf.take (min (want - msg.length) buf.length)), want,
              0, 0, buf.drop (min (want - msg.length) buf.length), []⟩
          else
            ⟨false, false, some (msg ++ buf.take (min (want - msg.length) buf.length)), want,
              bBegin + min (want - msg.length) buf.length, bEnd,
              buf.drop (min (want - msg.length) buf.length), []⟩

/-- The reassembly loop with its (sufficient) fuel bound. -/
def parseLoop (pending : Option (List Nat)) (want bBegin bEnd : Nat) (buf : List Nat) :
    ParseResult :=
  parseLoopF (2 * buf.length + 2) pending want bBegin bEnd buf

/-- Result of one `HandleReceive` call: the new connection state, how many
bytes were consumed from the wire stream, the payloads delivered through
`otPlatDsoHandleReceive` (in order), and the socket actions performed. -/
structure RecvResult where
  conn : DsoConnection
  consumed : Nat
  received : List (List Nat)
  actions : List SockAction
  deriving DecidableEq, Repr

/-- Helper of `HandleReceive`: fold the loop's outcome back into the
connection.  On `abort` (a zero-length frame) the source ran
`Disconnect(FORCIBLY_ABORT)` — a plain `mbedtls_net_close`, recorded as the
one `closeFd` action — and `mConnected` is cleared; the buffer fields keep
whatever the loop left in them. -/
def applyParse (c : DsoConnection) (n : Nat) (r : ParseResult) : RecvResult :=
  ⟨{ handle := c.handle
     connected := !r.abort
     pendingMessage := r.pending
     wantMessageSize := r.want
     bufferBegin := r.bufBegin
     bufferEnd := r.bufEnd
     bufferUnread := r.buf },
   n, r.msgs, if r.abort then [SockAction.closeFd] else []⟩

/-- Embeds `DsoAgent::DsoConnection::HandleReceive` (dso_transport.cpp:336-407),
driven from an explicit wire stream.  `req` is the number of bytes the
chunking offers to this read; the actual read is capped by the buffer space
`sizeof(mBuffer) - mBufferEnd` (so a full buffer makes `read` return 0, which
the source treats as `ExitNow()` without any state change) and by the bytes
available in the stream (an empty stream reads as would-block). On a
zero-length frame the source calls `Disconnect(FORCIBLY_ABORT)` — a plain
`mbedtls_net_close` — and exits without resetting the buffer indices. -/
def DsoConnection.handleReceive (c : DsoConnection) (stream : List Nat) (req : Nat) :
    RecvResult :=
  if c.connected then
    if min req (min (kBufferSize - c.bufferEnd) stream.length) = 0 then
      ⟨c, 0, [], []⟩
    else
      applyParse c (min req (min (kBufferSize - c.bufferEnd) stream.length))
        (parseLoop c.pendingMessage c.wantMessageSize c.bufferBegin
          (c.bufferEnd + min req (min (kBufferSize - c.bufferEnd) stream.length))
          (c.bufferUnread ++ stream.take (min req (min (kBufferSize - c.bufferEnd) stream.length))))
  else
    ⟨c, 0, [], []⟩

/-- Helper of `drive`: combine one read's results with the rest of a run. -/
def driveStep (res : RecvResult)
    (next : DsoConnection × List Nat × List (List Nat) × List SockAction) :
    DsoConnection × List Nat × List (List Nat) × List SockAction :=
  (next.1, next.2.1, res.received ++ next.2.2.1, res.actions ++ next.2.2.2)

/-- Drive `HandleReceive` over a stream with a schedule of proposed read
sizes (a chunking of the stream into successive reads); `driveStep` above
combines one read's results with the rest of the run.  Returns the final
connection, the unconsumed remainder of the stream, all delivered payloads
in order, and all socket actions. -/
def drive (c : DsoConnection) (stream : List Nat) (reqs : List Nat) :
    DsoConnection × List Nat × List (List Nat) × List SockAction :=
  match reqs with
  | [] => (c, stream, [], [])
  | r :: rest =>
    driveStep (c.handleReceive stream r)
      (drive (c.handleReceive stream r).conn
        (stream.drop (c.handleReceive stream r).consumed) rest)

/-- The 2-byte big-endian length prefix followed by the message bytes. -/
def encodeFrame (m : List Nat) : List Nat :=
  (m.length / 256) % 256 :: m.length % 256 :: m

/-- Byte-concatenation of the length-prefixed frames of a message sequence. -/
def encodeStream (msgs : List (List Nat)) : List Nat :=
  (msgs.map encodeFrame).flatten

/-- Embeds `DsoAgent::DsoConnection::Disconnect` (dso_transport.cpp:409-430): both
modes perform a plain `mbedtls_net_close` (no `SO_LINGER` is ever set; the
switch is marked "TODO handle them properly"), `mConnected` is cleared, and
the `otPlatDsoHandleDisconnected` upcall is commented out, so no upcall is
delivered. -/
def DsoConnection.disconnect (c : DsoConnection) (mode : DisconnectMode) :
    DsoConnection × List SockAction × List DsoUpcall :=
  let acts : List SockAction :=
    match mode with
    | .forciblyAbort => [SockAction.closeFd]
    | .gracefullyClose => [SockAction.closeFd]
  ({ c with connected := false }, acts, [])

/-- Source constant `sizeof(buf)` in `DsoAgent::DsoConnection::Send`: `uint8_t buf[1600]`. -/
def kSendBufSize : Nat := 1600

/-- Embeds `DsoAgent::DsoConnection::Send` (dso_transport.cpp:313-334): the bytes
handed to `mbedtls_net_send`.  `otMessageRead(aMessage, 0, buf + 2, sizeof(buf) - 2)`
copies at most 1598 payload bytes; the 2-byte prefix is the big-endian
`otMessageGetLength` (a `uint16_t`).  The socket write is assumed to succeed
(its error path only logs). -/
def sendBytes (msgContent : List Nat) : List Nat :=
  let payload := msgContent.take (kSendBufSize - 2)
  let size := msgContent.length % 65536
  (size / 256) % 256 :: size % 256 :: payload

/-- State of the transport agent `DsoAgent`: listening flag, listening socket
context, and the map from DNS-host connection handles to owned connections. -/
structure DsoAgentState where
  listeningEnabled : Bool
  listeningFdOpen : Bool
  connections : List (Nat × DsoConnection)
  deriving DecidableEq, Repr

/-- Embeds `DsoAgent::Find`: look a handle up in `mMap`. -/
def findConn (m : List (Nat × DsoConnection)) (h : Nat) : Option DsoConnection :=
  match m with
  | [] => none
  | (k, c) :: rest => if k = h then some c else findConn rest h

/-- Replace the connection stored under a handle (in-place mutation of the
mapped `DsoConnection`). -/
def updateConn (m : List (Nat × DsoConnection)) (h : Nat) (c : DsoConnection) :
    List (Nat × DsoConnection) :=
  m.map fun p => if p.1 = h then (h, c) else p

/-- Embeds `DsoAgent::Remove`: erase a handle from `mMap`. -/
def removeConn (m : List (Nat × DsoConnection)) (h : Nat) : List (Nat × DsoConnection) :=
  m.filter fun p => p.1 ≠ h

/-- Embeds `DsoAgent::Enable` (dso_transport.cpp:198-247): a no-op when already
listening; otherwise creates, binds and listens on the socket (failures call
`std::abort`; the environment is assumed healthy) and sets the flag. -/
def DsoAgentState.enable (a : DsoAgentState) : DsoAgentState × List SockAction :=
  if a.listeningEnabled then
    (a, [])
  else
    ({ a with listeningFdOpen := true, listeningEnabled := true },
     [SockAction.openListenSocket])

/-- Embeds `DsoAgent::Disable` (dso_transport.cpp:249-261): a no-op when not
listening; otherwise closes the listening socket, clears the whole connection
map, and clears the flag. -/
def DsoAgentState.disable (a : DsoAgentState) : DsoAgentState × List SockAction :=
  if a.listeningEnabled then
    ({ a with listeningFdOpen := false, listeningEnabled := false, connections := [] },
     [SockAction.closeFd])
  else
    (a, [])

/-- Embeds `DsoAgent::SetEnabled` / `otPlatDsoEnableListening`. -/
def DsoAgentState.setEnabled (a : DsoAgentState) (enabled : Bool) :
    DsoAgentState × List SockAction :=
  if enabled then a.enable else a.disable

/-- Embeds `otPlatDsoDisconnect` (dso_transport.cpp:64-77): look the handle up; when
present, `Disconnect` the connection and then `Remove` it from the map;
unknown handles are a no-op. -/
def otPlatDsoDisconnect (a : DsoAgentState) (h : Nat) (mode : DisconnectMode) :
    DsoAgentState × List SockAction × List DsoUpcall :=
  match findConn a.connections h with
  | none => (a, [], [])
  | some c =>
    let d := c.disconnect mode
    ({ a with connections := removeConn a.connections h }, d.2.1, d.2.2)

/-- Embeds `otPlatDsoSend` (dso_transport.cpp:49-62): look the handle up; when found,
`Send` the message; `otMessageFree(aMessage)` runs at `exit:` on both paths. -/
def otPlatDsoSend (a : DsoAgentState) (h : Nat) (msgContent : List Nat) :
    Option (List Nat) × Bool :=
  match findConn a.connections h with
  | none => (none, true)
  | some _ => (some (sendBytes msgContent), true)

/-- One connection step of `DsoAgent::ProcessOutgoingConnections`
(dso_transport.cpp:123-136): `conn->HandleReceive()` mutates the connection in
place; the map itself is not modified (in particular no entry is erased). -/
def agentHandleReceiveOn (a : DsoAgentState) (h : Nat) (stream : List Nat) (req : Nat) :
    DsoAgentState × RecvResult :=
  match findConn a.connections h with
  | none => (a, ⟨mkConnection h false, 0, [], []⟩)
  | some c =>
    let r := c.handleReceive stream req
    ({ a with connections := updateConn a.connections h r.conn }, r)

/-- First message of the buffer-stall scenario: 2045 bytes of `0x41`.  Its
frame (2-byte length prefix plus body) is 2047 bytes long. -/
def c1m1 : List Nat := List.replicate 2045 65

/-- The message sequence of the buffer-stall scenario: a 2045-byte message
followed by a 1-byte message.  Both lengths lie in `[1, 65535]`. -/
def c1msgs : List (List Nat) := [c1m1, [66]]

/-- The read schedule of the buffer-stall scenario: a first read of 2048
bytes (filling `mBuffer` completely and leaving a 1-byte partial length
prefix buffered), then a read offering the remaining 2 bytes.  The sizes
sum to the stream length, so this is a splitting of the whole stream into
successive reads. -/
def c1reads : List Nat := [2048, 2]

/-- The run of the buffer-stall scenario. -/
def c1run : DsoConnection × List Nat × List (List Nat) × List SockAction :=
  drive (mkConnection 7 true) (encodeStream c1msgs) c1reads

/-- The connection state after the first 2048-byte read of the stall
scenario: buffer indices frozen at 2047/2048 with the one dangling
length-prefix byte (`0x00`) still buffered. -/
def c1stalled : DsoConnection :=
  { handle := 7
    connected := true
    pendingMessage := none
    wantMessageSize := 0
    bufferBegin := 2047
    bufferEnd := 2048
    bufferUnread := [0] }

end Dso

namespace Mdns

/-- Values of `otbrError` relevant to the publisher layer. -/
inductive OtbrError
  | ok
  | invalidArgs
  | duplicated
  | aborted
  | notFound
  | mdnsError
  deriving DecidableEq, Repr

/-- Strict lexicographic byte-string comparison: `std::string::operator<`. -/
def bytesLt : List Nat → List Nat → Bool
  | _, [] => false
  | [], _ :: _ => true
  | a :: as, b :: bs => if a < b then true else if b < a then false else bytesLt as bs

/-- Insert into a sorted list w.r.t. a strict comparison (helper for the
model of `std::sort`). -/
def insertBy (lt : α → α → Bool) (x : α) : List α → List α
  | [] => [x]
  | y :: ys => if lt x y then x :: y :: ys else y :: insertBy lt x ys

/-- Deterministic model of `std::sort` with a strict comparison: insertion
sort.  It returns a permutation of its input that is sorted w.r.t. the
comparison, which is everything the source relies on (the tie order of
`std::sort` is unspecified). -/
def sortBy (lt : α → α → Bool) : List α → List α
  | [] => []
  | x :: xs => insertBy lt x (sortBy lt xs)

/-- A TXT entry (`Publisher::TxtEntry`): a name and a value, as byte strings. -/
structure TxtEntry where
  name : List Nat
  value : List Nat
  deriving DecidableEq, Repr

/-- Embeds `Publisher::SortSubTypeList` (mdns.cpp:84-88): `std::sort` with the
default `std::string` order. -/
def sortSubTypeList (l : List (List Nat)) : List (List Nat) :=
  sortBy bytesLt l

/-- Embeds `Publisher::SortTxtList` (mdns.cpp:90-95): `std::sort` comparing entries
by `mName` only. -/
def sortTxtList (l : List TxtEntry) : List TxtEntry :=
  sortBy (fun a b => bytesLt a.name b.name) l

/-- Modelled from the spec: the constant `kMaxTextEntrySize` lives in
`mdns.hpp`, which is not among the sources; per the spec's error taxonomy a
TXT entry longer than 254 bytes is `invalid_args`, so the bound is 254. -/
def kMaxTextEntrySize : Nat := 254

/-- Embeds `Publisher::EncodeTxtData` (mdns.cpp:62-82): for each entry append
`entryLength, name, '=', value` where `entryLength = |name| + 1 + |value|`;
an oversized entry aborts with `OTBR_ERROR_INVALID_ARGS` (`none`). -/
def encodeTxtData : List TxtEntry → Option (List Nat)
  | [] => some []
  | e :: rest =>
    let entryLength := e.name.length + 1 + e.value.length
    if entryLength ≤ kMaxTextEntrySize then
      (encodeTxtData rest).map fun tail =>
        entryLength :: (e.name ++ [61] ++ e.value ++ tail)
    else
      none

/-- Embeds `Publisher::MakeFullServiceName`: `aName + "." + aType + ".local"`
(`.local` = bytes `[46, 108, 111, 99, 97, 108]`). -/
def makeFullServiceName (name type : List Nat) : List Nat :=
  name ++ [46] ++ type ++ [46, 108, 111, 99, 97, 108]

/-- Embeds `PublisherMDnsSd::MakeRegType` (mdns_mdnssd.cpp:672-685): the sub-type
list is sorted (again) and appended to the type, comma-separated
(`','` = byte 44). -/
def makeRegType (type : List Nat) (subTypeList : List (List Nat)) : List Nat :=
  (sortBy bytesLt subTypeList).foldl (fun acc s => acc ++ [44] ++ s) type

/-- A service registration (`Publisher::ServiceRegistration`).  The
move-only completion callback is modelled as the list of callback
identifiers chained into it, in invocation order; `[]` is the null callback
(`OnceCallback::IsNull`). -/
structure ServiceRegistration where
  hostName : List Nat
  name : List Nat
  type : List Nat
  subTypeList : List (List Nat)
  port : Nat
  txtList : List TxtEntry
  callback : List Nat
  completed : Bool
  deriving DecidableEq, Repr

/-- Embeds `Publisher::ServiceRegistration::IsOutdated` (mdns.cpp:222-231): true iff
any of the six fields differs from the new request. -/
def ServiceRegistration.isOutdated (r : ServiceRegistration) (hostName name type : List Nat)
    (subTypeList : List (List Nat)) (port : Nat) (txtList : List TxtEntry) : Bool :=
  !(r.hostName == hostName && r.name == name && r.type == type &&
    r.subTypeList == subTypeList && r.port == port && r.txtList == txtList)

/-- Modelled from the spec: `Publisher::Registration::Complete` is declared in
`mdns.hpp`, which is not among the sources.  Per the spec's Registration
invariants, on the transition to completed the callback is invoked exactly
once with the outcome and then cleared; a registration that is already
completed (callback already cleared) invokes nothing. -/
def ServiceRegistration.complete (r : ServiceRegistration) (err : OtbrError) :
    ServiceRegistration × List (Nat × OtbrError) :=
  if r.completed then
    (r, [])
  else
    ({ r with completed := true, callback := [] }, r.callback.map fun cb => (cb, err))

/-- The arguments of one `DNSServiceRegister` call made by
`PublisherMDnsSd::PublishService`. -/
structure BackendCall where
  name : List Nat
  regType : List Nat
  port : Nat
  txtData : List Nat
  deriving DecidableEq, Repr

/-- Publisher state relevant to service registration: the
`mServiceRegistrations` map (keyed by full service name), the set of
published host names (for the host-existence check), and the record of
backend `DNSServiceRegister` calls. -/
structure PubState where
  serviceRegs : List (List Nat × ServiceRegistration)
  hostRegNames : List (List Nat)
  backendCalls : List BackendCall
  deriving DecidableEq, Repr

/-- The empty publisher. -/
def pubEmpty : PubState := ⟨[], [], []⟩

/-- Embeds `Publisher::FindServiceRegistration` (mdns.cpp:118-121): look the full
service name up in the map.  (The source uses `operator[]`, which
default-inserts a null pointer for a missing key; a null mapped value is
extensionally the same as an absent key for every use in the sources.) -/
def findServiceRegistration (s : PubState) (name type : List Nat) :
    Option ServiceRegistration :=
  (s.serviceRegs.find? fun p => p.1 == makeFullServiceName name type).map Prod.snd

/-- Embeds `Publisher::AddServiceRegistration` (mdns.cpp:107-110): map insert /
overwrite at the full service name. -/
def addServiceRegistration (s : PubState) (r : ServiceRegistration) : PubState :=
  let key := makeFullServiceName r.name r.type
  { s with serviceRegs :=
      (key, r) :: s.serviceRegs.filter fun p => p.1 ≠ key }

/-- Embeds `Publisher::RemoveServiceRegistration` (mdns.cpp:112-116): erase the map
entry.  Erasing drops the last `shared_ptr` reference, so the
`Registration` destructor (mdns.cpp:214-220) runs: a still-pending callback
is invoked with `OTBR_ERROR_ABORTED`.  Returns the destructor's callback
invocations. -/
def removeServiceRegistration (s : PubState) (name type : List Nat) :
    PubState × List (Nat × OtbrError) :=
  let key := makeFullServiceName name type
  let dtorEvents :=
    match findServiceRegistration s name type with
    | none => []
    | some r => r.callback.map fun cb => (cb, OtbrError.aborted)
  ({ s with serviceRegs := s.serviceRegs.filter fun p => p.1 ≠ key }, dtorEvents)

/-- Embeds `Publisher::HandleDuplicateServiceRegistration` (mdns.cpp:123-161).
Returns the new state, the callback handed back to the caller (`[]` when the
callback was consumed, which makes the caller exit), and the callback
invocations performed.  The three cases:
* existing registration with different parameters: it is removed (its
  pending callback fires with aborted) and the caller's callback is returned
  untouched;
* existing completed registration with identical parameters: the new
  callback is invoked immediately with success and the moved-from (null)
  callback is returned;
* existing pending registration with identical parameters: the new callback
  is chained after the existing one and the null callback is returned. -/
def handleDuplicateServiceRegistration (s : PubState) (hostName name type : List Nat)
    (subTypeList : List (List Nat)) (port : Nat) (txtList : List TxtEntry)
    (cb : List Nat) : PubState × List Nat × List (Nat × OtbrError) :=
  match findServiceRegistration s name type with
  | none => (s, cb, [])
  | some r =>
    if r.isOutdated hostName name type subTypeList port txtList then
      let rem := removeServiceRegistration s name type
      (rem.1, cb, rem.2)
    else if r.completed then
      (s, [], cb.map fun c => (c, OtbrError.ok))
    else
      let r2 := { r with callback := r.callback ++ cb }
      (addServiceRegistration s r2, [], [])

/-- Embeds `PublisherMDnsSd::PublishService` (mdns_mdnssd.cpp:505-562), with the
`DNSServiceRegister` call assumed to succeed (environment).  Steps, in
source order: sort the sub-type list and TXT list; build the registration
type from the sorted sub-types; when a host name is given require it to be
a published host (else `INVALID_ARGS`); run the duplicate handler with the
sorted lists; exit if the callback was consumed; encode the TXT data — from
the caller's `aTxtList`, not the sorted copy; record the backend call; store
the registration with the sorted lists and the callback.  On an error exit
the (non-null) callback is invoked with the error. -/
def publishService (s : PubState) (hostName name type : List Nat)
    (subTypeList : List (List Nat)) (port : Nat) (txtList : List TxtEntry)
    (cb : List Nat) : PubState × List (Nat × OtbrError) :=
  let sortedSubTypeList := sortSubTypeList subTypeList
  let sortedTxtList := sortTxtList txtList
  let regType := makeRegType type sortedSubTypeList
  if hostName ≠ [] ∧ ¬ s.hostRegNames.contains hostName then
    (s, cb.map fun c => (c, OtbrError.invalidArgs))
  else
    let dup := handleDuplicateServiceRegistration s hostName name type
      sortedSubTypeList port sortedTxtList cb
    let s1 := dup.1
    let cb1 := dup.2.1
    let evs1 := dup.2.2
    if cb1.isEmpty then
      (s1, evs1)
    else
      match encodeTxtData txtList with
      | none => (s1, evs1 ++ cb1.map fun c => (c, OtbrError.invalidArgs))
      | some txtData =>
        let s2 := { s1 with backendCalls := s1.backendCalls ++ [⟨name, regType, port, txtData⟩] }
        let reg : ServiceRegistration :=
          { hostName := hostName
            name := name
            type := type
            subTypeList := sortedSubTypeList
            port := port
            txtList := sortedTxtList
            callback := cb1
            completed := false }
        (addServiceRegistration s2 reg, evs1)

/-- Embeds `PublisherMDnsSd::HandleServiceRegisterResult` (mdns_mdnssd.cpp:457-503),
keyed here by (name, type) instead of the backend `DNSServiceRef`.  On
success (`kDNSServiceErr_NoError` with the Add flag) the registration is
completed with `OTBR_ERROR_NONE`; otherwise it is completed with the mapped
backend error and removed from the map. -/
def handleServiceRegisterResult (s : PubState) (name type : List Nat)
    (success : Bool) (err : OtbrError) : PubState × List (Nat × OtbrError) :=
  match findServiceRegistration s name type with
  | none => (s, [])
  | some r =>
    if success then
      let c := r.complete OtbrError.ok
      (addServiceRegistration s c.1, c.2)
    else
      let c := r.complete err
      let rem := removeServiceRegistration (addServiceRegistration s c.1) name type
      (rem.1, c.2 ++ rem.2)

/-- A bare `Publisher::Registration` for the callback-lifetime invariant:
the chained once-callback (`[]` = null) and the completed flag. -/
structure Registration where
  callback : List Nat
  completed : Bool
  deriving DecidableEq, Repr

/-- Modelled from the spec: `Publisher::Registration::Complete` (declared in
the missing `mdns.hpp`): on the transition to completed, invoke the callback
exactly once with the outcome, then clear it; no effect when already
completed. -/
def Registration.complete (r : Registration) (err : OtbrError) :
    Registration × List (Nat × OtbrError) :=
  if r.completed then
    (r, [])
  else
    ({ completed := true, callback := [] }, r.callback.map fun cb => (cb, err))

/-- Embeds `Publisher::Registration::~Registration` (mdns.cpp:214-220): if the
callback is still present (`!mCallback.IsNull()`), invoke it with
`OTBR_ERROR_ABORTED`.  Returns the invocations performed. -/
def Registration.destroy (r : Registration) : List (Nat × OtbrError) :=
  if r.callback.isEmpty then [] else r.callback.map fun cb => (cb, OtbrError.aborted)

/-- Run a sequence of `Complete` calls against a registration, collecting
the callback invocations. -/
def runCompletes (r : Registration) : List OtbrError → Registration × List (Nat × OtbrError)
  | [] => (r, [])
  | e :: es =>
    let c := r.complete e
    let rest := runCompletes c.1 es
    (rest.1, c.2 ++ rest.2)

end Mdns

namespace Srpl

/-- ASCII byte-level lowercasing. -/
def toLowerByte (b : Nat) : Nat :=
  if 65 ≤ b ∧ b ≤ 90 then b + 32 else b

/-- Modelled from the spec: `StringUtils::EqualCaseInsensitive`
(`utils/string_utils.hpp` is not among the sources); the spec prescribes a
case-insensitive name comparison. -/
def equalCaseInsensitive (a b : List Nat) : Bool :=
  a.map toLowerByte == b.map toLowerByte

/-- Source constant `SrplDnssd::kServiceType`: the bytes of the string literal
`_srpl-tls._tcp`. -/
def kServiceType : List Nat :=
  [95, 115, 114, 112, 108, 45, 116, 108, 115, 46, 95, 116, 99, 112]

/-- The fields of `Mdns::Publisher::DiscoveredInstanceInfo` consumed by
`SrplDnssd::OnServiceInstanceResolved`. -/
structure DiscoveredInstanceInfo where
  name : List Nat
  removed : Bool
  addresses : List (List Nat)
  port : Nat
  txtData : List Nat
  deriving DecidableEq, Repr

/-- The `otPlatSrplPartnerInfo` record delivered to the SRP Replication
engine via `otPlatSrplHandleDnssdBrowseResult`.  Fields other than
`removed` are meaningful only for non-removed events (the source leaves
them unset for removals; they are zeroed here). -/
structure PartnerInfo where
  removed : Bool
  address : List Nat
  port : Nat
  txtData : List Nat
  deriving DecidableEq, Repr

/-- State of `SrplDnssd` used by the browse callback: the non-zero subscriber
id (browsing active) and the cached own instance name. -/
structure SrplState where
  subscriberId : Nat
  serviceInstanceName : List Nat
  deriving DecidableEq, Repr

/-- Embeds `SrplDnssd::OnServiceInstanceResolved` (srpl_dnssd.cpp:138-171): exits
without an upcall unless browsing is active, the type matches
`_srpl-tls._tcp` case-insensitively, and the instance name differs from the
cached own name case-insensitively; a removal is forwarded as such; a
non-removal additionally requires at least one address and forwards the
first address, port and TXT data.  Returns `some` partner record iff
`otPlatSrplHandleDnssdBrowseResult` is invoked. -/
def onServiceInstanceResolved (st : SrplState) (type : List Nat)
    (info : DiscoveredInstanceInfo) : Option PartnerInfo :=
  if st.subscriberId = 0 then
    none
  else if ¬ equalCaseInsensitive type kServiceType then
    none
  else if equalCaseInsensitive info.name st.serviceInstanceName then
    none
  else if info.removed then
    some ⟨true, [], 0, []⟩
  else
    match info.addresses with
    | [] => none
    | a :: _ => some ⟨false, a, info.port, info.txtData⟩

/-- Embeds `otPlatSrplRegisterDnssdService` (srpl_dnssd.cpp:46-50) hands its
`uint16_t aTxtLength` to `SrplDnssd::RegisterService`, whose parameter is
declared `uint8_t aTxtLength` (srpl_dnssd.hpp:69): the C++ implicit
unsigned conversion reduces the length modulo 256.  `RegisterService`
(srpl_dnssd.cpp:110-126) then decodes exactly `aTxtLength` bytes of
`aTxtData`.  Returns the byte string and length reaching the decoder. -/
def otPlatSrplRegisterDnssdService (txtData : List Nat) (txtLength : Nat) :
    List Nat × Nat :=
  let len8 := txtLength % 256
  (txtData.take len8, len8)

end Srpl

open Dso Mdns Srpl

/-- Helper: a connection whose buffer indices have reached the full
`sizeof(mBuffer)` can never make progress again: the read is invoked with
zero space, returns 0, and `HandleReceive` exits unchanged. -/
theorem handleReceive_bufferFull (c : DsoConnection) (hc : kBufferSize ≤ c.bufferEnd)
    (stream : List Nat) (req : Nat) :
    c.handleReceive stream req = ⟨c, 0, [], []⟩ := by
  have h0 : kBufferSize - c.bufferEnd = 0 := Nat.sub_eq_zero_of_le hc
  unfold DsoConnection.handleReceive
  by_cases hcon : c.connected <;> simp [hcon, h0]

/-- Helper: driving a full-buffer connection with any schedule of further
reads consumes nothing and delivers nothing. -/
theorem drive_bufferFull (c : DsoConnection) (hc : kBufferSize ≤ c.bufferEnd) :
    ∀ (stream : List Nat) (reqs : List Nat), drive c stream reqs = (c, stream, [], []) := by
  intro stream reqs
  induction reqs generalizing stream with
  | nil => rfl
  | cons r rest ih => simp [drive, driveStep, handleReceive_bufferFull c hc, ih]

/-- Helper: the length of the stall scenario's first message. -/
theorem c1m1_length : c1m1.length = 2045 := by
  rw [show c1m1 = List.replicate 2045 65 from rfl, List.length_replicate]

/-- Helper: the wire stream of the stall scenario, in cons-normal form: the
2047-byte frame of `c1m1` (big-endian prefix `[7, 253]`) followed by the
3-byte frame `[0, 1, 66]` of the second message. -/
theorem c1_hstream : encodeStream c1msgs = 7 :: 253 :: (c1m1 ++ [0, 1, 66]) := by
  simp only [encodeStream, c1msgs, List.map_cons, List.map_nil, List.flatten_cons,
    List.flatten_nil, List.append_nil, encodeFrame, c1m1_length]
  norm_num

/-- Helper: the stall scenario's stream is 2050 bytes long. -/
theorem c1_hlen : (encodeStream c1msgs).length = 2050 := by
  rw [c1_hstream]
  simp only [List.length_cons, List.length_append, c1m1_length]
  norm_num

/-- Helper: the first 2048 bytes of the stream: the whole first frame plus
the single byte `0x00` of the second frame's length prefix. -/
theorem c1_htake : (encodeStream c1msgs).take 2048 = 7 :: 253 :: (c1m1 ++ [0]) := by
  rw [c1_hstream, show (2048 : Nat) = 2046 + 1 + 1 from rfl,
    List.take_succ_cons, List.take_succ_cons,
    List.take_append_eq_append_take, List.take_of_length_le (by rw [c1m1_length]; norm_num),
    c1m1_length]
  norm_num

/-- Helper: the 2 bytes of the stream beyond the first read. -/
theorem c1_hdrop : (encodeStream c1msgs).drop 2048 = [1, 66] := by
  rw [c1_hstream, show (2048 : Nat) = 2046 + 1 + 1 from rfl,
    List.drop_succ_cons, List.drop_succ_cons,
    List.drop_append_eq_append_drop, List.drop_eq_nil_of_le (by rw [c1m1_length]; norm_num),
    c1m1_length]
  norm_num

/-- Helper: the length of the buffered remainder after the first frame's
prefix is consumed. -/
theorem c1_buflen : (c1m1 ++ [0]).length = 2046 := by
  rw [List.length_append, c1m1_length]
  rfl

/-- Helper, loop entry 3 of the first read: one dangling length-prefix byte
buffered and no pending message — the loop breaks without resetting the
indices (the stalled state). -/
theorem c1_pl3 (f : Nat) :
    parseLoopF (f + 1) none 0 2047 2048 [0] =
      ⟨false, false, none, 0, 2047, 2048, [0], []⟩ := by
  rw [parseLoopF]
  rw [if_neg (by decide : ¬ (2 ≤ ([0] : List Nat).length))]

/-- Helper, loop entry 2 of the first read: the 2045-byte body is consumed
and delivered, the buffer indices advance to 2047/2048, and the loop
continues into the break of `c1_pl3`. -/
theorem c1_pl2 (f : Nat) :
    parseLoopF (f + 1 + 1) (some []) 2045 2 2048 (c1m1 ++ [0]) =
      ⟨false, false, none, 0, 2047, 2048, [0], [c1m1]⟩ := by
  have hmin : min (2045 - List.length ([] : List Nat)) (c1m1 ++ [0]).length = 2045 := by
    rw [List.length_nil, Nat.sub_zero, c1_buflen]
    exact min_eq_left (by norm_num)
  have htk : List.take 2045 (c1m1 ++ [0]) = c1m1 := by
    rw [List.take_append_eq_append_take, List.take_of_length_le (le_of_eq c1m1_length),
      c1m1_length]
    norm_num
  have hdp : List.drop 2045 (c1m1 ++ [0]) = [0] := by
    rw [List.drop_append_eq_append_drop, List.drop_eq_nil_of_le (le_of_eq c1m1_length),
      c1m1_length]
    norm_num
  rw [parseLoopF]
  rw [if_neg (by decide : ¬ ((2045 : Nat) < List.length ([] : List Nat)))]
  rw [hmin, htk, hdp, List.nil_append, c1m1_length]
  rw [if_pos rfl]
  rw [if_neg (by decide : ¬ (([0] : List Nat).isEmpty = true))]
  rw [show (2 : Nat) + 2045 = 2047 from rfl, c1_pl3 f]
  rfl

/-- Helper, loop entry 1 of the first read: the 2048 buffered bytes begin
with the prefix `[7, 253]`, read as length 2045, and the loop proceeds into
`c1_pl2`. -/
theorem c1_pl1 (f : Nat) :
    parseLoopF (f + 1 + 1 + 1) none 0 0 2048 (7 :: 253 :: (c1m1 ++ [0])) =
      ⟨false, false, none, 0, 2047, 2048, [0], [c1m1]⟩ := by
  have hw : 256 * (7 :: 253 :: (c1m1 ++ [0])).headD 0 +
      (7 :: 253 :: (c1m1 ++ [0])).tail.headD 0 = 2045 := rfl
  have hdp2 : (7 :: 253 :: (c1m1 ++ [0])).drop 2 = c1m1 ++ [0] := rfl
  rw [parseLoopF]
  rw [hw, hdp2, if_pos (by
    rw [show (7 :: 253 :: (c1m1 ++ [0])).length = 2048 by
      rw [List.length_cons, List.length_cons, c1_buflen]]
    norm_num : 2 ≤ (7 :: 253 :: (c1m1 ++ [0])).length)]
  rw [if_neg (by norm_num : ¬ ((2045 : Nat) = 0))]
  rw [show (0 : Nat) + 2 = 2 from rfl]
  exact c1_pl2 f

/-- Helper: `HandleReceive` on a connected connection with a non-zero
effective read is the parse loop applied to the enlarged buffer. -/
theorem handleReceive_run (c : DsoConnection) (stream : List Nat) (req : Nat)
    (hcon : c.connected = true) (n : Nat)
    (hn : min req (min (kBufferSize - c.bufferEnd) stream.length) = n) (hn0 : ¬ (n = 0))
    (chunk : List Nat) (hchunk : stream.take n = chunk) :
    c.handleReceive stream req =
      applyParse c n (parseLoop c.pendingMessage c.wantMessageSize c.bufferBegin
        (c.bufferEnd + n) (c.bufferUnread ++ chunk)) := by
  unfold DsoConnection.handleReceive
  rw [hn, hchunk, if_pos hcon, if_neg hn0]

/-- Helper: the full parse of the first 2048-byte read. -/
theorem c1_parse : parseLoop none 0 0 2048 (7 :: 253 :: (c1m1 ++ [0])) =
    ⟨false, false, none, 0, 2047, 2048, [0], [c1m1]⟩ := by
  rw [parseLoop]
  rw [show (7 :: 253 :: (c1m1 ++ [0])).length = 2048 by
    rw [List.length_cons, List.length_cons, c1_buflen]]
  rw [show 2 * 2048 + 2 = 4095 + 1 + 1 + 1 from rfl]
  exact c1_pl1 4095

/-- Helper: the first read of the stall scenario consumes 2048 bytes,
delivers exactly the first message, and leaves the connection in the
stalled state (buffer indices 2047/2048, still connected). -/
theorem c1_read1 : (mkConnection 7 true).handleReceive (encodeStream c1msgs) 2048 =
    ⟨c1stalled, 2048, [c1m1], []⟩ := by
  rw [handleReceive_run (mkConnection 7 true) (encodeStream c1msgs) 2048 rfl 2048
    (by rw [c1_hlen]; rfl) (by norm_num) (7 :: 253 :: (c1m1 ++ [0])) c1_htake]
  show applyParse (mkConnection 7 true) 2048
    (parseLoop none 0 0 (0 + 2048) ([] ++ (7 :: 253 :: (c1m1 ++ [0])))) = _
  rw [Nat.zero_add, List.nil_append, c1_parse]
  rfl

/-- Helper: the whole stall run: only the first message is delivered, two
wire bytes are never consumed, and no socket action is performed. -/
theorem c1run_eq : c1run = (c1stalled, [1, 66], [c1m1], []) := by
  have hstall : kBufferSize ≤ c1stalled.bufferEnd := le_of_eq rfl
  rw [c1run, show c1reads = [2048, 2] from rfl]
  rw [drive, c1_read1]
  show driveStep ⟨c1stalled, 2048, [c1m1], []⟩
    (drive c1stalled ((encodeStream c1msgs).drop 2048) [2]) = _
  rw [c1_hdrop, drive_bufferFull c1stalled hstall]
  rfl

/-- Claim C1 (code_bug evaluation): for the valid message sequence `c1msgs`
(lengths 2045 and 1, both within [1, 65535]) there is a splitting of the
frame stream into successive reads (`[2048, 2]`, summing to the stream
length) under which `handle_receive` delivers only the first message: the
first read fills the 2048-byte buffer completely while a 1-byte partial
length prefix remains buffered, after which every further read is issued
with zero buffer space, returns 0, and makes no progress — the second
message is never delivered and no disconnect happens, contradicting the
claim that every chunking delivers all messages. -/
theorem C1_framing_buffer_stall :
    (∀ m ∈ c1msgs, 1 ≤ m.length ∧ m.length ≤ 65535) ∧
    c1reads.sum = (encodeStream c1msgs).length ∧
    c1run.2.2.1 = [c1m1] ∧
    c1run.2.2.1 ≠ c1msgs ∧
    c1run.2.1 = [1, 66] ∧
    c1run.2.2.2 = [] ∧
    c1run.1.connected = true ∧
    (∀ (stream reqs : List Nat), drive c1run.1 stream reqs = (c1run.1, stream, [], [])) := by
  refine ⟨?_, ?_, ?_, ?_, ?_, ?_, ?_, ?_⟩
  · intro m hm
    rw [show c1msgs = [c1m1, [66]] from rfl] at hm
    cases hm with
    | head => rw [c1m1_length]; exact ⟨by norm_num, by norm_num⟩
    | tail _ hm =>
      cases hm with
      | head => exact ⟨by decide, by decide⟩
      | tail _ hm => cases hm
  · rw [c1_hlen]
    rfl
  · rw [c1run_eq]
  · rw [c1run_eq]
    exact fun h => absurd (congrArg List.length h) (by decide)
  · rw [c1run_eq]
  · rw [c1run_eq]
  · rw [c1run_eq]
    rfl
  · intro stream reqs
    rw [c1run_eq]
    exact drive_bufferFull c1stalled (le_of_eq rfl) stream reqs

/-- Claim C3: a host-initiated `otPlatDsoDisconnect` (and the underlying
`DsoConnection::Disconnect`) delivers no upcall at all to the DNS host — in
particular never `on_disconnected` — for every handle and both disconnect
modes. -/
theorem C3_disconnect_no_upcall (a : DsoAgentState) (h : Nat) (mode : DisconnectMode)
    (c : DsoConnection) :
    (c.disconnect mode).2.2 = [] ∧ (otPlatDsoDisconnect a h mode).2.2 = [] := by
  refine ⟨rfl, ?_⟩
  unfold otPlatDsoDisconnect
  cases findConn a.connections h <;> simp [DsoConnection.disconnect]

/-- Claim C2 (code_bug evaluation): a Connected connection that receives the
two bytes `[0x00, 0x00]` is torn down by a plain `close` — no
`SO_LINGER`/RST is ever set — the Transport Agent's map entry for it is NOT
dropped, and no `on_receive` is delivered then or afterwards. -/
theorem C2_zero_length_plain_close :
    (let a : DsoAgentState := ⟨true, true, [(7, mkConnection 7 true)]⟩
     let r := agentHandleReceiveOn a 7 [0, 0] 2
     r.2.actions = [SockAction.closeFd] ∧
     SockAction.setLinger true 0 ∉ r.2.actions ∧
     findConn r.1.connections 7 = some r.2.conn ∧
     r.2.conn.connected = false ∧
     r.2.received = [] ∧
     (∀ stream req, r.2.conn.handleReceive stream req = ⟨r.2.conn, 0, [], []⟩)) := by
  refine ⟨by decide, by decide, by decide, by decide, by decide, ?_⟩
  intro stream req
  rfl

/-- Claim C4 (code_bug evaluation): `Send` copies the payload into a
1600-byte stack buffer, so a message of length 1599 has only 1598 payload
bytes (plus the 2-byte prefix, which still encodes 1599) written: 1600
bytes on the wire instead of the claimed 1599 + 2 = 1601.  The message is
freed regardless (also for unknown handles). -/
theorem C4_send_truncates_large_message :
    (sendBytes (List.replicate 1599 7)).length = 1600 ∧
    (sendBytes (List.replicate 1599 7)).length ≠ 1599 + 2 ∧
    (sendBytes (List.replicate 1599 7)).take 2 = [6, 63] ∧
    (∀ (a : DsoAgentState) (h : Nat) (m : List Nat), (otPlatDsoSend a h m).2 = true) := by
  have hsend : sendBytes (List.replicate 1599 7) =
      6 :: 63 :: List.take 1598 (List.replicate 1599 7) := by
    unfold sendBytes kSendBufSize
    norm_num [List.length_replicate]
  have hlen : (sendBytes (List.replicate 1599 7)).length = 1600 := by
    rw [hsend]
    simp only [List.length_cons, List.length_take, List.length_replicate]
    norm_num
  refine ⟨hlen, by rw [hlen]; decide, ?_, ?_⟩
  · rw [hsend]
    rfl
  · intro a h m
    unfold otPlatDsoSend
    cases findConn a.connections h <;> simp

/-- Claim C7: `enable_listening(true)` twice — the second call changes
nothing and performs no socket action; `enable_listening(false)` from the
enabled state leaves an empty connection map and a closed listening
socket. -/
theorem C7_enable_listening (a : DsoAgentState) :
    (((a.setEnabled true).1.setEnabled true).1 = (a.setEnabled true).1 ∧
     ((a.setEnabled true).1.setEnabled true).2 = []) ∧
    (a.listeningEnabled = true →
      ((a.setEnabled false).1.connections = [] ∧
       (a.setEnabled false).1.listeningFdOpen = false)) := by
  by_cases ha : a.listeningEnabled <;>
    simp [DsoAgentState.setEnabled, DsoAgentState.enable, DsoAgentState.disable, ha]

/-- Witness for C7 at a concrete enabled agent with one connection. -/
theorem C7_enable_listening_witness :
    ((DsoAgentState.setEnabled ⟨true, true, [(1, mkConnection 1 true)]⟩ false).1.connections = [] ∧
     (DsoAgentState.setEnabled ⟨true, true, [(1, mkConnection 1 true)]⟩ false).1.listeningFdOpen = false) :=
  (C7_enable_listening ⟨true, true, [(1, mkConnection 1 true)]⟩).2 rfl

/-- Helper: completing an already-completed registration with a cleared
callback does nothing, over any further sequence of Complete calls. -/
theorem runCompletes_completed (es : List OtbrError) :
    runCompletes ⟨[], true⟩ es = (⟨[], true⟩, []) := by
  induction es with
  | nil => rfl
  | cons e es ih => simp [runCompletes, Registration.complete, ih]

/-- Claim C6: over a Registration's lifetime (any sequence of Complete
calls followed by destruction) every chained callback is invoked exactly
once: with the first completion's outcome if the registration completes,
and with aborted if it is destroyed while still pending. -/
theorem C6_callback_exactly_once (cb : Nat) (tail : List Nat) (outcomes : List OtbrError) :
    (let r0 : Registration := ⟨cb :: tail, false⟩
     let run := runCompletes r0 outcomes
     run.2 ++ run.1.destroy =
       (cb :: tail).map fun c =>
         (c, match outcomes with
             | [] => OtbrError.aborted
             | e :: _ => e)) := by
  cases outcomes with
  | nil => simp [runCompletes, Registration.destroy]
  | cons e es =>
    simp [runCompletes, Registration.complete, runCompletes_completed, Registration.destroy]

/-- Claim C5: two `publish_service` calls with identical parameters, the
second arriving before the first resolves, cause exactly one backend
register call; when the registration then resolves (either outcome), both
callbacks fire with that same outcome, the first caller's first. -/
theorem C5_duplicate_pending_coalesce (name type : List Nat) (subTypeList : List (List Nat))
    (port : Nat) (txtList : List TxtEntry) (cb1 cb2 : Nat) (success : Bool) (err : OtbrError)
    (txtData : List Nat) (henc : encodeTxtData txtList = some txtData) :
    (let p1 := publishService pubEmpty [] name type subTypeList port txtList [cb1]
     let p2 := publishService p1.1 [] name type subTypeList port txtList [cb2]
     let res := handleServiceRegisterResult p2.1 name type success err
     let outcome := if success then OtbrError.ok else err
     p1.2 = [] ∧ p2.2 = [] ∧
     p2.1.backendCalls.length = 1 ∧
     res.2 = [(cb1, outcome), (cb2, outcome)]) := by
  have h1 : publishService pubEmpty [] name type subTypeList port txtList [cb1] =
      ({ serviceRegs := [(makeFullServiceName name type,
           { hostName := [], name := name, type := type,
             subTypeList := sortSubTypeList subTypeList, port := port,
             txtList := sortTxtList txtList, callback := [cb1], completed := false })],
         hostRegNames := [],
         backendCalls := [⟨name, makeRegType type (sortSubTypeList subTypeList), port, txtData⟩] },
       []) := by
    simp [publishService, pubEmpty, handleDuplicateServiceRegistration,
      findServiceRegistration, addServiceRegistration, henc]
  have h2 : publishService
      ({ serviceRegs := [(makeFullServiceName name type,
           { hostName := [], name := name, type := type,
             subTypeList := sortSubTypeList subTypeList, port := port,
             txtList := sortTxtList txtList, callback := [cb1], completed := false })],
         hostRegNames := [],
         backendCalls := [⟨name, makeRegType type (sortSubTypeList subTypeList), port, txtData⟩] } :
           PubState)
      [] name type subTypeList port txtList [cb2] =
      ({ serviceRegs := [(makeFullServiceName name type,
           { hostName := [], name := name, type := type,
             subTypeList := sortSubTypeList subTypeList, port := port,
             txtList := sortTxtList txtList, callback := [cb1, cb2], completed := false })],
         hostRegNames := [],
         backendCalls := [⟨name, makeRegType type (sortSubTypeList subTypeList), port, txtData⟩] },
       []) := by
    simp [publishService, handleDuplicateServiceRegistration, findServiceRegistration,
      addServiceRegistration, ServiceRegistration.isOutdated]
  have h3 : (handleServiceRegisterResult
      ({ serviceRegs := [(makeFullServiceName name type,
           { hostName := [], name := name, type := type,
             subTypeList := sortSubTypeList subTypeList, port := port,
             txtList := sortTxtList txtList, callback := [cb1, cb2], completed := false })],
         hostRegNames := [],
         backendCalls := [⟨name, makeRegType type (sortSubTypeList subTypeList), port, txtData⟩] } :
           PubState)
      name type success err).2 =
      [(cb1, if success then OtbrError.ok else err), (cb2, if success then OtbrError.ok else err)] := by
    cases success <;>
      simp [handleServiceRegisterResult, findServiceRegistration, addServiceRegistration,
        removeServiceRegistration, ServiceRegistration.complete]
  refine ⟨?_, ?_, ?_, ?_⟩ <;> simp only [h1, h2, h3] <;> simp

/-- Witness for C5 at a concrete publication (empty TXT list, success). -/
theorem C5_duplicate_pending_coalesce_witness :
    (let p1 := publishService pubEmpty [] [110] [116] [] 80 [] [1]
     let p2 := publishService p1.1 [] [110] [116] [] 80 [] [2]
     let res := handleServiceRegisterResult p2.1 [110] [116] true OtbrError.ok
     let outcome := if true then OtbrError.ok else OtbrError.ok
     p1.2 = [] ∧ p2.2 = [] ∧
     p2.1.backendCalls.length = 1 ∧
     res.2 = [(1, outcome), (2, outcome)]) :=
  C5_duplicate_pending_coalesce [110] [116] [] 80 [] 1 2 true OtbrError.ok [] rfl

/-- Claim C8 (counterexample): publishing a service whose TXT list is given
in the order `b`, `a` hands the backend the encoding of the unsorted
caller-supplied list, not the encoding of the name-sorted list, refuting
the claim that the TXT list is sorted before the data handed to the
backend. -/
theorem C8_txt_not_sorted_for_backend :
    (let txt : List TxtEntry := [⟨[98], [49]⟩, ⟨[97], [50]⟩]
     let p := publishService pubEmpty [] [110] [116] [] 80 txt [1]
     p.1.backendCalls.map (fun b => b.txtData) = [[3, 98, 61, 49, 3, 97, 61, 50]] ∧
     encodeTxtData (sortTxtList txt) = some [3, 97, 61, 50, 3, 98, 61, 49] ∧
     ¬ p.1.backendCalls.map (fun b => b.txtData) = [[3, 97, 61, 50, 3, 98, 61, 49]]) := by
  decide

/-- Claim C8 (amended): the sub-type list is sorted both for the duplicate
comparison and for the registration type handed to the backend; the TXT
list is sorted for the duplicate comparison (the stored registration keeps
the sorted lists, so reordered lists are recognised as identical and do not
reach the backend), but the TXT data handed to the backend is encoded from
the caller-supplied order. -/
theorem C8_canonicalization_amended (name type : List Nat) (subTypeList : List (List Nat))
    (port : Nat) (txtList : List TxtEntry) (cb : Nat)
    (txtData : List Nat) (henc : encodeTxtData txtList = some txtData) :
    (let p := publishService pubEmpty [] name type subTypeList port txtList [cb]
     p.1.backendCalls =
       [⟨name, makeRegType type (sortSubTypeList subTypeList), port, txtData⟩] ∧
     findServiceRegistration p.1 name type =
       some { hostName := [], name := name, type := type,
              subTypeList := sortSubTypeList subTypeList, port := port,
              txtList := sortTxtList txtList, callback := [cb], completed := false } ∧
     (∀ (txtList2 : List TxtEntry) (subTypeList2 : List (List Nat)) (cb2 : Nat),
       sortTxtList txtList2 = sortTxtList txtList →
       sortSubTypeList subTypeList2 = sortSubTypeList subTypeList →
       (publishService p.1 [] name type subTypeList2 port txtList2 [cb2]).1.backendCalls.length
         = 1)) := by
  have h1 : publishService pubEmpty [] name type subTypeList port txtList [cb] =
      ({ serviceRegs := [(makeFullServiceName name type,
           { hostName := [], name := name, type := type,
             subTypeList := sortSubTypeList subTypeList, port := port,
             txtList := sortTxtList txtList, callback := [cb], completed := false })],
         hostRegNames := [],
         backendCalls := [⟨name, makeRegType type (sortSubTypeList subTypeList), port, txtData⟩] },
       []) := by
    simp [publishService, pubEmpty, handleDuplicateServiceRegistration,
      findServiceRegistration, addServiceRegistration, henc]
  refine ⟨?_, ?_, ?_⟩
  · simp only [h1]
  · simp only [h1]
    simp [findServiceRegistration, makeFullServiceName]
  · intro txtList2 subTypeList2 cb2 htxt hsub
    simp only [h1]
    simp [publishService, handleDuplicateServiceRegistration, findServiceRegistration,
      addServiceRegistration, ServiceRegistration.isOutdated, htxt, hsub]

/-- Witness for C8's amended theorem: a two-entry TXT list published once,
then republished in permuted order without a second backend call. -/
theorem C8_canonicalization_amended_witness :
    (let p := publishService pubEmpty [] [110] [116] [] 80 [⟨[98], [49]⟩, ⟨[97], [50]⟩] [1]
     p.1.backendCalls =
       [⟨[110], makeRegType [116] (sortSubTypeList []), 80, [3, 98, 61, 49, 3, 97, 61, 50]⟩] ∧
     findServiceRegistration p.1 [110] [116] =
       some { hostName := [], name := [110], type := [116],
              subTypeList := sortSubTypeList [], port := 80,
              txtList := sortTxtList [⟨[98], [49]⟩, ⟨[97], [50]⟩], callback := [1],
              completed := false } ∧
     (∀ (txtList2 : List TxtEntry) (subTypeList2 : List (List Nat)) (cb2 : Nat),
       sortTxtList txtList2 = sortTxtList [⟨[98], [49]⟩, ⟨[97], [50]⟩] →
       sortSubTypeList subTypeList2 = sortSubTypeList [] →
       (publishService p.1 [] [110] [116] subTypeList2 80 txtList2 [cb2]).1.backendCalls.length
         = 1)) :=
  C8_canonicalization_amended [110] [116] [] 80 [⟨[98], [49]⟩, ⟨[97], [50]⟩] 1
    [3, 98, 61, 49, 3, 97, 61, 50] rfl

/-- Claim C9 (counterexample): with browsing active and a cached own name
`srpl(7)`, a resolved SRPL event for the different name `srpl(8)` that is
not a removal and carries no addresses is NOT forwarded to the SRP
Replication engine, contradicting the claim that every different-name event
is delivered. -/
theorem C9_self_suppression_counterexample :
    (let st : SrplState := ⟨1, [115, 114, 112, 108, 40, 55, 41]⟩
     let info : DiscoveredInstanceInfo :=
       ⟨[115, 114, 112, 108, 40, 56, 41], false, [], 853, []⟩
     equalCaseInsensitive info.name st.serviceInstanceName = false ∧
     onServiceInstanceResolved st kServiceType info = none) := by
  exact ⟨by decide, by decide⟩

/-- Claim C9 (amended): while browsing, for SRPL-type events, an event whose
name equals the cached own name case-insensitively is never forwarded;
an event with a different name is forwarded provided it is a removal or
carries at least one address (the first address, port and TXT data are
forwarded); a non-removed different-name event with no addresses is
dropped. -/
theorem C9_self_suppression_amended (st : SrplState) (type : List Nat)
    (info : DiscoveredInstanceInfo)
    (hsub : st.subscriberId ≠ 0) (htype : equalCaseInsensitive type kServiceType = true) :
    (equalCaseInsensitive info.name st.serviceInstanceName = true →
      onServiceInstanceResolved st type info = none) ∧
    (equalCaseInsensitive info.name st.serviceInstanceName = false →
      (info.removed = true → onServiceInstanceResolved st type info = some ⟨true, [], 0, []⟩) ∧
      (info.removed = false → info.addresses = [] →
        onServiceInstanceResolved st type info = none) ∧
      (∀ a rest, info.removed = false → info.addresses = a :: rest →
        onServiceInstanceResolved st type info = some ⟨false, a, info.port, info.txtData⟩)) := by
  unfold onServiceInstanceResolved
  refine ⟨fun hname => ?_, fun hname => ⟨fun hrem => ?_, fun hrem haddr => ?_, ?_⟩⟩
  · simp [hsub, htype, hname]
  · simp [hsub, htype, hname, hrem]
  · simp [hsub, htype, hname, hrem, haddr]
  · intro a rest hrem haddr
    simp [hsub, htype, hname, hrem, haddr]

/-- Witness for C9's amended theorem: a concrete different-name event with
one address is forwarded with that address, port and TXT data. -/
theorem C9_self_suppression_amended_witness :
    onServiceInstanceResolved ⟨1, [115, 114, 112, 108, 40, 55, 41]⟩ kServiceType
      ⟨[115, 114, 112, 108, 40, 56, 41], false, [[32, 1]], 853, [9]⟩ =
      some ⟨false, [32, 1], 853, [9]⟩ :=
  ((C9_self_suppression_amended ⟨1, [115, 114, 112, 108, 40, 55, 41]⟩ kServiceType
      ⟨[115, 114, 112, 108, 40, 56, 41], false, [[32, 1]], 853, [9]⟩
      (by decide) (by decide)).2 (by decide)).2.2 [32, 1] [] rfl rfl

/-- Claim C10: the platform entry point takes a 16-bit TXT length but the
controller's `RegisterService` parameter is 8-bit, so the byte string and
length reaching the TXT decoder are reduced modulo 256; for lengths of 256
or more the decoded length is strictly smaller than the given one. -/
theorem C10_txt_length_mod256 (txtData : List Nat) (txtLength : Nat)
    (hlen : txtLength < 65536) :
    (otPlatSrplRegisterDnssdService txtData txtLength).2 = txtLength % 256 ∧
    (otPlatSrplRegisterDnssdService txtData txtLength).1 = txtData.take (txtLength % 256) ∧
    (256 ≤ txtLength → (otPlatSrplRegisterDnssdService txtData txtLength).2 < txtLength) := by
  refine ⟨rfl, rfl, fun h => ?_⟩
  unfold otPlatSrplRegisterDnssdService
  exact lt_of_lt_of_le (Nat.mod_lt _ (by norm_num)) h

/-- Witness for C10 at a concrete 300-byte-length registration: only
300 mod 256 = 44 bytes reach the decoder. -/
theorem C10_txt_length_mod256_witness :
    (otPlatSrplRegisterDnssdService [1, 2, 3] 300).2 = 300 % 256 ∧
    (otPlatSrplRegisterDnssdService [1, 2, 3] 300).1 = [1, 2, 3].take (300 % 256) ∧
    (256 ≤ 300 → (otPlatSrplRegisterDnssdService [1, 2, 3] 300).2 < 300) :=
  C10_txt_length_mod256 [1, 2, 3] 300 (by decide)

end OtbrProof
